import Mathlib

/-!
Shallow embedding of the telemetry / spatial-analytics core of BlueGuard
(server/services/iot-service.ts and server/services/geo-analytics-service.ts),
together with theorems settling the frozen claims about it.

JavaScript numbers are modelled as rationals (ℚ); `Math.PI` is modelled as the
IEEE-754 double closest to pi (jsPi below); `Math.round` as `jsRound`.
The haversine `calculateDistance` primitive appears only abstractly, as a
parameter `d : Coord → Coord → ℚ`: no claim depends on the trigonometric
formula itself, only on how distances are consumed.
Randomness (`Math.random()` draws) is made explicit as parameters in [0, 1).
-/

/-! ## Shared primitive types -/

/-- Sensor/device types (iot-service.ts, SensorConfig.type). -/
inductive SensorType
  | wave | tide | weather | seismic | water_quality | marine_life
deriving DecidableEq

/-- Reading quality grades (iot-service.ts, SensorReading.quality). -/
inductive Quality
  | excellent | good | fair | poor
deriving DecidableEq

/-- Alert severities (iot-service.ts, AlertThreshold.severity). -/
inductive Severity
  | low | medium | high | critical
deriving DecidableEq

/-- Threshold comparison kinds (iot-service.ts, AlertThreshold.condition). -/
inductive Condition
  | above | below | between | outside
deriving DecidableEq

/-- A JavaScript field value in `SensorReading.data`
(`number | string | boolean`). -/
inductive JsVal
  | num (q : ℚ)
  | str (s : String)
  | bool (b : Bool)
deriving DecidableEq

/-- A geographic location of a device (iot-service.ts, SensorConfig.location). -/
structure Location where
  lat : ℚ
  lon : ℚ
  name : String
deriving DecidableEq

/-- Device configuration (iot-service.ts, SensorConfig).
`lastMaintenance` is a millisecond timestamp (JS Date value). -/
structure SensorConfig where
  id : String
  type : SensorType
  location : Location
  updateInterval : ℚ
  isActive : Bool
  lastMaintenance : ℚ
deriving DecidableEq

/-- A sensor reading (iot-service.ts, SensorReading); `data` is the free-form
field map, modelled as an association list. -/
structure SensorReading where
  sensorId : String
  timestamp : ℚ
  data : List (String × JsVal)
  quality : Quality
  batteryLevel : ℚ
  signalStrength : ℚ
deriving DecidableEq

/-- An alert rule (iot-service.ts, AlertThreshold); optional bounds. -/
structure AlertThreshold where
  sensorType : SensorType
  parameter : String
  minValue : Option ℚ
  maxValue : Option ℚ
  condition : Condition
  severity : Severity
deriving DecidableEq

/-- An emitted alert event (iot-service.ts, checkAlertThresholds push at
lines 351-356); the formatted message is determined by the other fields and
is not modelled. -/
structure AlertEvent where
  parameter : String
  value : ℚ
  threshold : AlertThreshold
deriving DecidableEq

/-- `Math.round`: round half toward positive infinity. -/
def jsRound (q : ℚ) : ℤ := ⌊q + 1 / 2⌋

/-- `Math.PI`, the IEEE-754 double closest to pi
(3.141592653589793115997963468544185161590576171875). -/
def jsPi : ℚ := 884279719003555 / 281474976710656

/-! ## Reading quality (generateSensorReading, lines 200-288)

The function body keeps a mutable `quality` variable: it is initialized to
'good' (line 203), set to 'excellent' inside the seismic 5%-spike branch
(lines 244-247), and then *unconditionally* reassigned from
`daysSinceMaintenance` by the if/else-if chain at lines 273-278 — every path
of that chain assigns, so the earlier value is dead. -/

/-- Lines 274-278: the maintenance-age quality chain (the value assigned to
`quality` regardless of what it held before). -/
def qualityFromMaintenance (days : ℚ) : Quality :=
  if days > 30 then Quality.poor
  else if days > 14 then Quality.fair
  else if days > 7 then Quality.good
  else Quality.excellent

/-- The final value of the `quality` variable of `generateSensorReading` for a
device of type `t`, where `rSpike` is the `Math.random()` draw of line 244
(the spike branch is taken when `rSpike < 0.05`) and `days` is
`daysSinceMaintenance` (line 274).  The intermediate assignments of lines 203
and 246 are bound but overwritten by the chain of lines 274-278. -/
def readingQuality (t : SensorType) (rSpike : ℚ) (days : ℚ) : Quality :=
  let _q := Quality.good
  let _q := if t = SensorType.seismic ∧ rSpike < 5 / 100 then Quality.excellent else _q
  qualityFromMaintenance days

/-- The `Math.random()` draws consumed by the seismic case of
`generateSensorReading` (lines 234-248) plus the battery/signal draws
(lines 285-286). Each is in [0, 1). -/
structure SeismicRands where
  rMag : ℚ
  rFreq : ℚ
  rPWave : ℚ
  rSWave : ℚ
  rAccel : ℚ
  rSpike : ℚ
  rSpikeMag : ℚ
  rBattery : ℚ
  rSignal : ℚ
deriving DecidableEq

/-- Milliseconds per day (24 * 60 * 60 * 1000). -/
def msPerDay : ℚ := 86400000

/-- Lines 234-248: the seismic `data` map; the spike branch (taken when
`rSpike < 0.05`) overwrites `magnitude` with `2.5 + Math.random() * 2`. -/
def seismicData (r : SeismicRands) : List (String × JsVal) :=
  let magnitude := if r.rSpike < 5 / 100 then 25 / 10 + r.rSpikeMag * 2 else r.rMag * (25 / 10)
  [ ("magnitude", JsVal.num magnitude),
    ("frequency", JsVal.num (1 + r.rFreq * 10)),
    ("pWaveVelocity", JsVal.num (5000 + r.rPWave * 1000)),
    ("sWaveVelocity", JsVal.num (3000 + r.rSWave * 500)),
    ("acceleration", JsVal.num (r.rAccel * (1 / 10))) ]

/-- `generateSensorReading` (lines 200-288) specialized to a seismic device;
`now` is `Date.now()`. -/
def generateSeismicReading (cfg : SensorConfig) (now : ℚ) (r : SeismicRands) :
    SensorReading :=
  let days := (now - cfg.lastMaintenance) / msPerDay
  { sensorId := cfg.id
    timestamp := now
    data := seismicData r
    quality := readingQuality SensorType.seismic r.rSpike days
    batteryLevel := max 10 (100 - days * 2 + (r.rBattery - 1 / 2) * 10)
    signalStrength := max 20 (100 - r.rSignal * 30) }

/-! ## Threshold engine (checkAlertThresholds, lines 307-361) -/

/-- JS truthiness of an optional numeric bound: `threshold.maxValue && ...`
is falsy when the bound is absent *or equal to 0*. -/
def jsTruthyNum : Option ℚ → Bool
  | none => false
  | some x => x != 0

/-- Lines 321-357: evaluation of one threshold rule against a reading's data,
returning the pushed alert if the rule triggers.  The `between` condition has
no case in the switch and never triggers. -/
def evalThreshold (rdata : List (String × JsVal)) (t : AlertThreshold) :
    Option AlertEvent :=
  match rdata.lookup t.parameter with
  | some (JsVal.num v) =>
    match t.condition with
    | Condition.above =>
      if jsTruthyNum t.maxValue ∧ v > t.maxValue.getD 0 then
        some ⟨t.parameter, v, t⟩
      else none
    | Condition.below =>
      if jsTruthyNum t.minValue ∧ v < t.minValue.getD 0 then
        some ⟨t.parameter, v, t⟩
      else none
    | Condition.outside =>
      if jsTruthyNum t.minValue ∧ jsTruthyNum t.maxValue ∧
          (v < t.minValue.getD 0 ∨ v > t.maxValue.getD 0) then
        some ⟨t.parameter, v, t⟩
      else none
    | Condition.between => none
  | _ => none

/-- Lines 307-361: `checkAlertThresholds`.  The configuration registry is the
association list `cfgs`; an unknown sensor id returns the empty alert list
(line 316); otherwise the rules with matching sensor type are each evaluated
against the reading. -/
def checkAlertThresholds (cfgs : List (String × SensorConfig))
    (thresholds : List AlertThreshold) (r : SensorReading) : List AlertEvent :=
  match cfgs.lookup r.sensorId with
  | none => []
  | some cfg =>
    (thresholds.filter (fun t => t.sensorType = cfg.type)).filterMap
      (evalThreshold r.data)

/-- Lines 131-185: the statically configured alert thresholds. -/
def defaultThresholds : List AlertThreshold :=
  [ ⟨SensorType.wave, "height", none, some 4, Condition.above, Severity.high⟩,
    ⟨SensorType.wave, "height", none, some 6, Condition.above, Severity.critical⟩,
    ⟨SensorType.tide, "level", some (-3), some 3, Condition.outside, Severity.medium⟩,
    ⟨SensorType.weather, "windSpeed", none, some 25, Condition.above, Severity.medium⟩,
    ⟨SensorType.weather, "windSpeed", none, some 40, Condition.above, Severity.high⟩,
    ⟨SensorType.seismic, "magnitude", none, some 3, Condition.above, Severity.medium⟩,
    ⟨SensorType.water_quality, "ph", some (65 / 10), some (85 / 10), Condition.outside,
      Severity.medium⟩ ]

/-! ## Stream manager state (IoTService registry + timers)

`sensorConfigs` models the `Map<string, SensorConfig>` as an insertion-ordered
association list.  `runningTimers` models the set of device ids that have a
*live* recurring timer.  (The source also keeps a `streamingIntervals` map of
timer handles; a handle on which `clearInterval` was called may linger in that
map, but its timer no longer fires, so the live-timer set — not the map — is
what the scheduling claims are about.) -/

/-- `Map.set` semantics on an association list: replace in place if the key is
present, else append. -/
def setKey {β : Type} : List (String × β) → String → β → List (String × β)
  | [], k, v => [(k, v)]
  | (k', v') :: rest, k, v =>
    if k' = k then (k, v) :: rest else (k', v') :: setKey rest k v

/-- The mutable state of `IoTService` relevant to scheduling. -/
structure IoTState where
  sensorConfigs : List (String × SensorConfig)
  runningTimers : List String
deriving DecidableEq

/-- `Partial<SensorConfig>` (the `message.config` patch of a
`sensor_config_update` message). -/
structure ConfigPatch where
  id : Option String := none
  type : Option SensorType := none
  location : Option Location := none
  updateInterval : Option ℚ := none
  isActive : Option Bool := none
  lastMaintenance : Option ℚ := none
deriving DecidableEq

/-- The object spread `{ ...existing, ...newConfig }` of line 434. -/
def mergeConfig (c : SensorConfig) (p : ConfigPatch) : SensorConfig :=
  { id := p.id.getD c.id
    type := p.type.getD c.type
    location := p.location.getD c.location
    updateInterval := p.updateInterval.getD c.updateInterval
    isActive := p.isActive.getD c.isActive
    lastMaintenance := p.lastMaintenance.getD c.lastMaintenance }

/-- Lines 82-129: `initializeSensorConfigs`; `now` is `Date.now()` and the
`lastMaintenance` dates are `now` minus 7/14/3/1/5 days. -/
def initialSensorConfigs (now : ℚ) : List (String × SensorConfig) :=
  [ ("wave_001",
      ⟨"wave_001", SensorType.wave, ⟨40.7128, -74.0060, "New York Harbor Alpha"⟩,
        30, true, now - 7 * msPerDay⟩),
    ("tide_001",
      ⟨"tide_001", SensorType.tide, ⟨40.7589, -73.9851, "Central Park Reservoir Beta"⟩,
        60, false, now - 14 * msPerDay⟩),
    ("weather_001",
      ⟨"weather_001", SensorType.weather, ⟨40.6892, -74.0445, "Gamma Weather Station"⟩,
        15, true, now - 3 * msPerDay⟩),
    ("seismic_001",
      ⟨"seismic_001", SensorType.seismic, ⟨40.7282, -74.0776, "Seismic Monitor Delta"⟩,
        5, true, now - 1 * msPerDay⟩),
    ("water_001",
      ⟨"water_001", SensorType.water_quality, ⟨40.7505, -73.9934, "Water Quality Epsilon"⟩,
        300, true, now - 5 * msPerDay⟩) ]

/-- Lines 187-198: `startSensorDataStreams` installs one recurring timer per
*active* configured device. -/
def startSensorDataStreams (s : IoTState) : IoTState :=
  { s with
    runningTimers := (s.sensorConfigs.filter (fun kc => kc.2.isActive)).map (·.1) }

/-- The state right after `initialize` (configs loaded, streams started). -/
def initState (now : ℚ) : IoTState :=
  startSensorDataStreams { sensorConfigs := initialSensorConfigs now, runningTimers := [] }

/-- Lines 431-453: `updateSensorConfig`.  An unknown id is a silent no-op
(no error value exists in the source).  When the patch carries a *truthy*
`updateInterval` (present and nonzero), the old timer is cleared and — when
the *old* configuration was active (the code consults stale `existing`) — a
fresh timer is started.  Any other patch, in particular one that only flips
`isActive`, leaves the timers untouched. -/
def updateSensorConfig (s : IoTState) (sensorId : String) (p : ConfigPatch) :
    IoTState :=
  match s.sensorConfigs.lookup sensorId with
  | none => s
  | some existing =>
    let cfgs := setKey s.sensorConfigs sensorId (mergeConfig existing p)
    let timers :=
      match p.updateInterval with
      | some v =>
        if v ≠ 0 then
          let cleared := s.runningTimers.erase sensorId
          if existing.isActive then cleared ++ [sensorId] else cleared
        else s.runningTimers
      | none => s.runningTimers
    { sensorConfigs := cfgs, runningTimers := timers }

/-- Lines 455-461: `updateMaintenanceRecord` (timers untouched). -/
def updateMaintenanceRecord (s : IoTState) (sensorId : String) (date : ℚ) :
    IoTState :=
  match s.sensorConfigs.lookup sensorId with
  | none => s
  | some cfg =>
    let cfg2 : SensorConfig := { cfg with lastMaintenance := date }
    { s with sensorConfigs := setKey s.sensorConfigs sensorId cfg2 }

/-- Lines 482-493: `cleanup` clears every interval. -/
def cleanup (s : IoTState) : IoTState :=
  { s with runningTimers := [] }

/-- The claimed invariant: a device has a live recurring timer iff its active
flag is true (and timers exist only for registered devices). -/
def timersMatchActive (s : IoTState) : Bool :=
  s.sensorConfigs.all (fun kc => s.runningTimers.contains kc.1 == kc.2.isActive) &&
  s.runningTimers.all (fun id => (s.sensorConfigs.lookup id).isSome)

/-! ## Geo analytics (geo-analytics-service.ts)

The haversine `calculateDistance` (lines 404-412) computes with `Math.sin`,
`Math.cos`, `Math.atan2`, `Math.sqrt`; it enters every algorithm below only
as an opaque pairwise distance, so it is abstracted as a parameter
`d : Coord → Coord → ℚ` (first argument: the point whose lat/lon appear as
`lat1, lon1` in the call). -/

/-- A latitude/longitude pair. -/
structure Coord where
  lat : ℚ
  lon : ℚ
deriving DecidableEq

instance : Inhabited Coord := ⟨⟨0, 0⟩⟩

/-- An input point for clustering (lat, lon, timestamp). -/
structure GeoPoint where
  lat : ℚ
  lon : ℚ
  timestamp : ℚ
deriving DecidableEq

instance : Inhabited GeoPoint := ⟨⟨0, 0, 0⟩⟩

/-- The lat/lon of a point. -/
def GeoPoint.coord (p : GeoPoint) : Coord := ⟨p.lat, p.lon⟩

/-- Abstract pairwise distance (stands for `calculateDistance`). -/
abbrev DistFn := Coord → Coord → ℚ

/-- One step of the JS pattern
`if (f x < minSoFar) { minSoFar := f x; best := x }` (`none` is the initial
`Infinity` state, which any element beats). -/
def jsMinStep {α : Type} (f : α → ℚ) (acc : Option α) (x : α) : α :=
  match acc with
  | none => x
  | some m => if f x < f m then x else m

/-- The JS scan `let m = Infinity; for x: if (f x < m) { m := f x; best := x }`:
returns the first element of `l` attaining the minimum of `f` (strict
improvement keeps the earliest), `none` on an empty list. -/
def jsMinBy {α : Type} (f : α → ℚ) (l : List α) : Option α :=
  l.foldl (fun acc x => some (jsMinStep f acc x)) none

/-- Stable insertion: `x` goes before the first element with strictly larger
key (so after every earlier element of equal key), exactly the order the JS
stable `sort((a, b) => a.distance - b.distance)` produces. -/
def insertByKey {α : Type} (key : α → ℚ) (x : α) : List α → List α
  | [] => [x]
  | b :: t => if key x < key b then x :: b :: t else b :: insertByKey key x t

/-- Stable sort ascending by a rational key (JS `Array.prototype.sort` with
the numeric comparator is stable). -/
def sortByKey {α : Type} (key : α → ℚ) (l : List α) : List α :=
  l.foldl (fun acc x => insertByKey key x acc) []

/-! ### Clustering (performClustering, lines 246-313) -/

/-- First argmin of `f` over `{0, …, n}`: the scan of lines 275-294
(`nearestCluster` starts at index 0, strict `<` keeps the earliest index on
ties). -/
def scanArgmin (f : ℕ → ℚ) : ℕ → ℕ
  | 0 => 0
  | n + 1 =>
    let b := scanArgmin f n
    if f (n + 1) < f b then n + 1 else b

/-- Index of the nearest centroid to point `p` (ties broken by centroid
iteration order, lines 275-294); `0` for an empty centroid list (the source
would fault there — it is only reached with `k ≥ 1` centroids). -/
def nearestIdx (d : DistFn) (centers : List Coord) (p : GeoPoint) : ℕ :=
  if centers.isEmpty then 0
  else scanArgmin (fun j => d p.coord (centers.getD j default)) (centers.length - 1)

/-- Arithmetic mean of the assigned points' coordinates (lines 299-301). -/
def meanPoint (pts : List GeoPoint) : Coord :=
  ⟨(pts.map GeoPoint.lat).sum / pts.length, (pts.map GeoPoint.lon).sum / pts.length⟩

/-- `Math.max(...pts.map(p => distance(p, c)))` (lines 304-306); `0` for an
empty list (the source only evaluates it on non-empty clusters). -/
def maxDist (d : DistFn) (c : Coord) : List GeoPoint → ℚ
  | [] => 0
  | p :: rest => rest.foldl (fun m q => max m (d q.coord c)) (d p.coord c)

/-- One cluster record of `performClustering` (center, assigned points,
radius). -/
structure KCluster where
  center : Coord
  points : List GeoPoint
  radius : ℚ
deriving DecidableEq

instance : Inhabited KCluster := ⟨⟨default, [], 0⟩⟩

/-- Lines 260-267: the k initial clusters; `seeds` lists the indices drawn by
`Math.floor(Math.random() * points.length)`. -/
def initClusters (points : List GeoPoint) (seeds : List ℕ) : List KCluster :=
  seeds.map fun i =>
    let p := points.getD i default
    { center := ⟨p.lat, p.lon⟩, points := [], radius := 0 }

/-- Lines 270-310, one iteration: clear the assignments, assign every point to
its nearest centroid, then for each non-empty cluster recompute the center as
the mean of its points and the radius as the max distance to the new center
(empty clusters keep their center and radius). -/
def kmeansStep (d : DistFn) (points : List GeoPoint) (cs : List KCluster) :
    List KCluster :=
  let centers := cs.map KCluster.center
  (List.range cs.length).map fun j =>
    let assigned := points.filter fun p => nearestIdx d centers p == j
    if assigned.isEmpty then
      let c := cs.getD j default
      { c with points := [] }
    else
      let ctr := meanPoint assigned
      { center := ctr, points := assigned, radius := maxDist d ctr assigned }

/-- Lines 246-313: `performClustering` — empty input short-circuits to `[]`;
otherwise exactly 10 iterations, then clusters left empty are dropped. -/
def performClustering (d : DistFn) (points : List GeoPoint) (seeds : List ℕ) :
    List KCluster :=
  if points.isEmpty then []
  else
    ((kmeansStep d points)^[10] (initClusters points seeds)).filter
      fun c => !c.points.isEmpty

/-- Modelled from the spec's clustering paragraph, for comparison with
`performClustering`: the points assigned to centroid `j` (nearest centroid,
ties broken by centroid iteration order). -/
def specAssign (d : DistFn) (points : List GeoPoint) (centers : List Coord)
    (j : ℕ) : List GeoPoint :=
  points.filter fun p => nearestIdx d centers p == j

/-- Modelled from the spec's clustering paragraph: one iteration on centroids
alone — each non-empty centroid becomes the arithmetic mean of its assigned
points, an empty one is left in place. -/
def specUpdate (d : DistFn) (points : List GeoPoint) (centers : List Coord) :
    List Coord :=
  (List.range centers.length).map fun j =>
    let a := specAssign d points centers j
    if a.isEmpty then centers.getD j default else meanPoint a

/-- Modelled from the spec's clustering paragraph: run 10
assign-then-recompute iterations from the sampled centroids (9 centroid
updates position the centroids for the 10th and final assignment, whose
update yields the reported centroids); a centroid whose final assigned set is
empty is dropped, and each surviving cluster reports the mean centroid, its
assigned set, and radius = max distance from the centroid to an assigned
point. -/
def specClustering (d : DistFn) (points : List GeoPoint) (seeds : List ℕ) :
    List KCluster :=
  if points.isEmpty then []
  else
    let c9 := (specUpdate d points)^[9]
      (seeds.map fun i => (points.getD i default).coord)
    (List.range c9.length).filterMap fun j =>
      let a := specAssign d points c9 j
      if a.isEmpty then none
      else some { center := meanPoint a, points := a, radius := maxDist d (meanPoint a) a }

/-! ### Cluster risk (calculateClusterRisk, lines 315-321)

`pointDensity = count / (Math.PI * radius * radius)`.  In JS, a zero radius
with at least one point gives `+Infinity`, and `Infinity > 10` is true, so
the function returns 'high'; with zero points and zero radius the density is
`NaN`, both comparisons are false, and it returns 'low'. -/

/-- Cluster / zone risk levels (geo-analytics-service.ts). -/
inductive RiskLevel
  | low | medium | high
deriving DecidableEq

/-- Lines 315-321: `calculateClusterRisk` on a cluster with `count` assigned
points and the given radius; the `radius = 0` branches spell out the JS
division-by-zero outcomes described above. -/
def calculateClusterRisk (count : ℕ) (radius : ℚ) : RiskLevel :=
  if radius = 0 then
    if count = 0 then RiskLevel.low else RiskLevel.high
  else
    let pointDensity := (count : ℚ) / (jsPi * radius * radius)
    if pointDensity > 10 then RiskLevel.high
    else if pointDensity > 5 then RiskLevel.medium
    else RiskLevel.low

/-- Line 107: the risk level `analyzeLocationClusters` derives for one
cluster record of `performClustering`. -/
def clusterRiskOf (c : KCluster) : RiskLevel :=
  calculateClusterRisk c.points.length c.radius

/-! ### Risk zones and proximity (analyzeProximityRisks, lines 152-186) -/

/-- An evacuation route of a risk zone. -/
structure EvacRoute where
  name : String
  coordinates : List Coord
  capacity : ℤ
deriving DecidableEq

/-- A static risk zone (geo-analytics-service.ts, RiskZone). -/
structure RiskZone where
  id : String
  name : String
  polygon : List Coord
  riskLevel : RiskLevel
  riskFactors : List String
  evacuationRoutes : List EvacRoute
deriving DecidableEq

/-- The reference vertex `zone.polygon[0]` (lines 161, 328). -/
def refVertex (z : RiskZone) : Coord := z.polygon.getD 0 default

/-- Line 170: the 3/2/1 severity weight of a zone risk level. -/
def severityWeight : RiskLevel → ℚ
  | RiskLevel.high => 3
  | RiskLevel.medium => 2
  | RiskLevel.low => 1

/-- The part of the return value of `analyzeProximityRisks` that the spec
constrains (the mock incidents and the recommendation strings are untouched
by the claims). -/
structure ProximityResult where
  riskScore : ℤ
  nearbyRiskZones : List (RiskZone × ℚ)
deriving DecidableEq

/-- Lines 152-186: `analyzeProximityRisks` — zones whose reference vertex is
within `radius`, sorted ascending by distance; the risk score accumulates
`max(0, (radius − distance)/radius) * weight * 20` over them and is rounded
and capped at 100. -/
def analyzeProximityRisks (d : DistFn) (zones : List RiskZone) (q : Coord)
    (radius : ℚ) : ProximityResult :=
  let nearbyRiskZones :=
    sortByKey (fun zd : RiskZone × ℚ => zd.2)
      ((zones.map fun z => (z, d q (refVertex z))).filter fun zd => zd.2 ≤ radius)
  let riskScore :=
    (nearbyRiskZones.map fun zd =>
      max 0 ((radius - zd.2) / radius) * severityWeight zd.1.riskLevel * 20).sum
  { riskScore := min 100 (jsRound riskScore), nearbyRiskZones := nearbyRiskZones }

/-- Modelled from the spec's proximity-scoring sentence: the sum over the
selected zones (in catalog order — the sum is order-independent) of
`max(0, (radius − distance)/radius) × severityWeight × 20`. -/
def specProximityScore (d : DistFn) (zones : List RiskZone) (q : Coord)
    (radius : ℚ) : ℚ :=
  ((zones.filter fun z => d q (refVertex z) ≤ radius).map fun z =>
    max 0 ((radius - d q (refVertex z)) / radius) * severityWeight z.riskLevel * 20).sum

/-! ### Evacuation resolution (getEvacuationAnalysis, lines 188-244) -/

/-- The `nearestRoute` record (name, distance, estimated time, path). -/
structure NearestRoute where
  name : String
  distance : ℚ
  estimatedTime : ℤ
  coordinates : List Coord
deriving DecidableEq

/-- One entry of `alternativeRoutes` (name, distance, estimated time,
capacity). -/
structure AltRoute where
  name : String
  distance : ℚ
  estimatedTime : ℤ
  capacity : ℤ
deriving DecidableEq

/-- Distance from the query point to a route's first coordinate
(lines 210-213). -/
def routeHeadDist (d : DistFn) (q : Coord) (r : EvacRoute) : ℚ :=
  d q (r.coordinates.getD 0 default)

/-- The `alternativeRoutes` record built for a route (lines 226-231). -/
def mkAltRoute (d : DistFn) (q : Coord) (r : EvacRoute) : AltRoute :=
  let dist := routeHeadDist d q r
  { name := r.name, distance := dist, estimatedTime := jsRound (dist * 3),
    capacity := r.capacity }

/-- Lines 188-244: `getEvacuationAnalysis` (without the random congestion
mock) — scan all zones' routes keeping the strictly closest first-coordinate
(`estimatedTime = Math.round(distance * 3)`), collect the routes within
20 km, sort them ascending by distance and keep the top 3. -/
def getEvacuationAnalysis (d : DistFn) (zones : List RiskZone) (q : Coord) :
    Option NearestRoute × List AltRoute :=
  let routes := zones.flatMap RiskZone.evacuationRoutes
  let nearestRoute :=
    (jsMinBy (routeHeadDist d q) routes).map fun r =>
      let dist := routeHeadDist d q r
      ({ name := r.name, distance := dist, estimatedTime := jsRound (dist * 3),
         coordinates := r.coordinates } : NearestRoute)
  let alternativeRoutes :=
    (routes.filter fun r => routeHeadDist d q r ≤ 20).map (mkAltRoute d q)
  (nearestRoute, (sortByKey AltRoute.distance alternativeRoutes).take 3)

/-- Lines 45-90: the static risk-zone catalog loaded by `initialize`. -/
def staticRiskZones : List RiskZone :=
  [ { id := "zone_001"
      name := "Miami Beach High Risk Zone"
      polygon := [⟨25.7617, -80.1918⟩, ⟨25.7817, -80.1718⟩,
                  ⟨25.7417, -80.1518⟩, ⟨25.7217, -80.1818⟩]
      riskLevel := RiskLevel.high
      riskFactors := ["Storm surge susceptible", "Low elevation", "Dense population"]
      evacuationRoutes :=
        [⟨"Route A1A North", [⟨25.7617, -80.1918⟩, ⟨25.8017, -80.1718⟩], 5000⟩] },
    { id := "zone_002"
      name := "San Francisco Bay Area"
      polygon := [⟨37.7749, -122.4194⟩, ⟨37.8049, -122.3894⟩,
                  ⟨37.7449, -122.3594⟩, ⟨37.7149, -122.3994⟩]
      riskLevel := RiskLevel.medium
      riskFactors := ["Seismic activity", "Tsunami risk", "Fog impact"]
      evacuationRoutes :=
        [⟨"Golden Gate Bridge", [⟨37.7749, -122.4194⟩, ⟨37.8083, -122.4784⟩], 10000⟩] } ]

/-! ## Theorems settling the claims -/

/-- Claim C1, the code evaluated at the failing input: a seismic reading that
takes the 5% spike branch (rSpike = 0 < 0.05, so magnitude = 2.5 ∈ [2.5, 4.5])
on a device 40 days past service reports quality 'poor', not 'excellent': the
maintenance-age chain of lines 274-278 unconditionally overwrites the
'excellent' set in the spike branch at line 246. -/
theorem c1_spike_reading_downgraded_at_40_days :
    (0 : ℚ) < 5 / 100 ∧
    (generateSeismicReading
        ⟨"seismic_001", SensorType.seismic, ⟨40.7282, -74.0776, "Seismic Monitor Delta"⟩,
          5, true, -(40 * msPerDay)⟩
        0 ⟨0, 0, 0, 0, 0, 0, 0, 1 / 2, 1 / 2⟩).data.lookup "magnitude" =
      some (JsVal.num (5 / 2)) ∧
    (generateSeismicReading
        ⟨"seismic_001", SensorType.seismic, ⟨40.7282, -74.0776, "Seismic Monitor Delta"⟩,
          5, true, -(40 * msPerDay)⟩
        0 ⟨0, 0, 0, 0, 0, 0, 0, 1 / 2, 1 / 2⟩).quality = Quality.poor ∧
    (generateSeismicReading
        ⟨"seismic_001", SensorType.seismic, ⟨40.7282, -74.0776, "Seismic Monitor Delta"⟩,
          5, true, -(40 * msPerDay)⟩
        0 ⟨0, 0, 0, 0, 0, 0, 0, 1 / 2, 1 / 2⟩).quality ≠ Quality.excellent := by
  refine ⟨by norm_num, ?_, ?_, ?_⟩ <;>
    simp only [generateSeismicReading, seismicData, readingQuality,
      qualityFromMaintenance, msPerDay, List.lookup] <;>
    norm_num <;> decide

/-- Claim C9: outside the seismic spike branch the quality grade is exactly
the maintenance-age function — greater than 30 days 'poor', greater than 14
'fair', greater than 7 'good', otherwise 'excellent'. -/
theorem c9_quality_pure_function_of_service_days (t : SensorType)
    (rSpike days : ℚ) (h : ¬(t = SensorType.seismic ∧ rSpike < 5 / 100)) :
    readingQuality t rSpike days = qualityFromMaintenance days ∧
    (qualityFromMaintenance days = Quality.poor ↔ 30 < days) ∧
    (qualityFromMaintenance days = Quality.fair ↔ 14 < days ∧ days ≤ 30) ∧
    (qualityFromMaintenance days = Quality.good ↔ 7 < days ∧ days ≤ 14) ∧
    (qualityFromMaintenance days = Quality.excellent ↔ days ≤ 7) := by
  refine ⟨rfl, ?_, ?_, ?_, ?_⟩ <;> unfold qualityFromMaintenance <;> split_ifs <;>
    simp_all <;> intros <;> linarith

/-- Witness for C9 at a concrete input (the spec's own instance
days-since-service = 40). -/
theorem c9_quality_pure_function_of_service_days_witness :
    readingQuality SensorType.wave 1 40 = qualityFromMaintenance 40 ∧
    (qualityFromMaintenance 40 = Quality.poor ↔ (30 : ℚ) < 40) ∧
    (qualityFromMaintenance 40 = Quality.fair ↔ (14 : ℚ) < 40 ∧ (40 : ℚ) ≤ 30) ∧
    (qualityFromMaintenance 40 = Quality.good ↔ (7 : ℚ) < 40 ∧ (40 : ℚ) ≤ 14) ∧
    (qualityFromMaintenance 40 = Quality.excellent ↔ (40 : ℚ) ≤ 7) :=
  c9_quality_pure_function_of_service_days SensorType.wave 1 40 (by simp)

/-- Claim C10: a reading whose sensor id has no registered configuration gets
the empty alert list, whatever its data holds (line 316). -/
theorem c10_unknown_sensor_empty_alerts (cfgs : List (String × SensorConfig))
    (thresholds : List AlertThreshold) (r : SensorReading)
    (h : cfgs.lookup r.sensorId = none) :
    checkAlertThresholds cfgs thresholds r = [] := by
  unfold checkAlertThresholds
  rw [h]

/-- Witness for C10: a reading from unregistered "ghost_001" against the
default registry and rules. -/
theorem c10_unknown_sensor_empty_alerts_witness :
    checkAlertThresholds (initialSensorConfigs 0) defaultThresholds
      ⟨"ghost_001", 0, [("height", JsVal.num 99)], Quality.good, 50, 50⟩ = [] :=
  c10_unknown_sensor_empty_alerts (initialSensorConfigs 0) defaultThresholds
    ⟨"ghost_001", 0, [("height", JsVal.num 99)], Quality.good, 50, 50⟩ (by decide)

/-- Counterexample to claim C2 as stated: an 'above' rule whose max bound is
present and equal to 0, on a matching wave reading with height = 1 > 0, emits
no alert — the truthiness guard `threshold.maxValue &&` of line 330 treats
the bound 0 as absent. -/
theorem c2_counterexample_zero_bound_never_fires :
    checkAlertThresholds
      [("wave_001", ⟨"wave_001", SensorType.wave, ⟨0, 0, "w"⟩, 30, true, 0⟩)]
      [⟨SensorType.wave, "height", none, some 0, Condition.above, Severity.high⟩]
      ⟨"wave_001", 0, [("height", JsVal.num 1)], Quality.good, 50, 50⟩ = [] ∧
    (1 : ℚ) > 0 := by
  decide

/-- Modelled from the amended claim C2: a rule violation, requiring the
relevant bound(s) to be present and nonzero (JS-truthy). -/
def violatesAmended (t : AlertThreshold) (v : ℚ) : Prop :=
  match t.condition with
  | Condition.above => ∃ m, t.maxValue = some m ∧ m ≠ 0 ∧ v > m
  | Condition.below => ∃ m, t.minValue = some m ∧ m ≠ 0 ∧ v < m
  | Condition.outside => ∃ mn mx, t.minValue = some mn ∧ t.maxValue = some mx ∧
      mn ≠ 0 ∧ mx ≠ 0 ∧ (v < mn ∨ v > mx)
  | Condition.between => False

/-- Claim C2 as amended: with the named field present and numeric, a rule
emits exactly one alert (carrying the field, the observed value and the rule)
iff it is violated in the amended sense — 'above': max present, nonzero and
value > max; 'below': min present, nonzero and value < min; 'outside': both
bounds present, nonzero, and value outside [min, max] — and rule lists are
evaluated rule-by-rule independently, so the alerts of a concatenation are
the concatenation of the alerts. -/
theorem c2_threshold_semantics_amended :
    (∀ (rdata : List (String × JsVal)) (t : AlertThreshold) (v : ℚ),
      rdata.lookup t.parameter = some (JsVal.num v) →
      (((evalThreshold rdata t).isSome ↔ violatesAmended t v) ∧
        ∀ a, evalThreshold rdata t = some a → a = ⟨t.parameter, v, t⟩)) ∧
    (∀ (cfgs : List (String × SensorConfig)) (ts1 ts2 : List AlertThreshold)
      (r : SensorReading),
      checkAlertThresholds cfgs (ts1 ++ ts2) r =
        checkAlertThresholds cfgs ts1 r ++ checkAlertThresholds cfgs ts2 r) := by
  constructor
  · intro rdata t v h
    obtain ⟨st, par, mn, mx, cond, sev⟩ := t
    simp only [evalThreshold] at *
    rw [h]
    cases cond <;> cases mn <;> cases mx <;>
      simp_all [violatesAmended, jsTruthyNum]
  · intro cfgs ts1 ts2 r
    unfold checkAlertThresholds
    cases cfgs.lookup r.sensorId <;>
      simp [List.filter_append, List.filterMap_append]

/-- Witness for C2 (amended): on a wave reading with height = 6.5, the two
statically configured wave rules (max 4.0 high, max 6.0 critical) are both
violated, and evaluating them together yields both alerts. -/
theorem c2_threshold_semantics_amended_witness :
    (((evalThreshold [("height", JsVal.num (7))]
        ⟨SensorType.wave, "height", none, some 4, Condition.above, Severity.high⟩).isSome ↔
      violatesAmended
        ⟨SensorType.wave, "height", none, some 4, Condition.above, Severity.high⟩ (7)) ∧
      ∀ a, evalThreshold [("height", JsVal.num (7))]
          ⟨SensorType.wave, "height", none, some 4, Condition.above, Severity.high⟩ = some a →
        a = ⟨"height", 7,
          ⟨SensorType.wave, "height", none, some 4, Condition.above, Severity.high⟩⟩) ∧
    checkAlertThresholds (initialSensorConfigs 0)
        ([⟨SensorType.wave, "height", none, some 4, Condition.above, Severity.high⟩] ++
          [⟨SensorType.wave, "height", none, some 6, Condition.above, Severity.critical⟩])
        ⟨"wave_001", 0, [("height", JsVal.num (7))], Quality.good, 50, 50⟩ =
      checkAlertThresholds (initialSensorConfigs 0)
        [⟨SensorType.wave, "height", none, some 4, Condition.above, Severity.high⟩]
        ⟨"wave_001", 0, [("height", JsVal.num (7))], Quality.good, 50, 50⟩ ++
      checkAlertThresholds (initialSensorConfigs 0)
        [⟨SensorType.wave, "height", none, some 6, Condition.above, Severity.critical⟩]
        ⟨"wave_001", 0, [("height", JsVal.num (7))], Quality.good, 50, 50⟩ :=
  ⟨c2_threshold_semantics_amended.1 [("height", JsVal.num (7))]
      ⟨SensorType.wave, "height", none, some 4, Condition.above, Severity.high⟩
      (7) (by decide),
    c2_threshold_semantics_amended.2 (initialSensorConfigs 0) _ _ _⟩

/-- `Map.set` then `Map.get` on the same key returns the stored value. -/
theorem lookup_setKey {β : Type} (l : List (String × β)) (k : String) (v : β) :
    (setKey l k v).lookup k = some v := by
  induction l with
  | nil => simp [setKey]
  | cons hd tl ih =>
    obtain ⟨k', v'⟩ := hd
    by_cases hk : k' = k
    · subst hk
      simp [setKey]
    · simp only [setKey, if_neg hk, List.lookup]
      rw [show (k == k') = false by simpa using fun h => hk h.symm]
      exact ih

/-- Claim C3, the code evaluated at the failing input: starting from the
initialized service, a `sensor_config_update` that only sets
`isActive: false` on the active device "wave_001" flips the stored flag but
never reaches the timer-restart branch (guarded by `newConfig.updateInterval`,
line 437), so the device's recurring timer keeps running and the claimed
timer-iff-active invariant, true right after initialization, is violated. -/
theorem c3_deactivation_leaves_timer_running :
    timersMatchActive (initState 0) = true ∧
    timersMatchActive
      (updateSensorConfig (initState 0) "wave_001" { isActive := some false }) = false ∧
    (updateSensorConfig (initState 0) "wave_001"
      { isActive := some false }).runningTimers.contains "wave_001" = true ∧
    ((updateSensorConfig (initState 0) "wave_001"
      { isActive := some false }).sensorConfigs.lookup "wave_001").map
        SensorConfig.isActive = some false := by
  refine ⟨by decide, by decide, by decide, ?_⟩
  rfl

/-- Counterexample to claim C6 as stated: a reconfiguration of "wave_001"
with sampling interval −5 is not rejected — the merged configuration, with
the negative interval, is stored in the registry (`updateSensorConfig`
performs no validation). -/
theorem c6_counterexample_negative_interval_applied :
    ((updateSensorConfig (initState 0) "wave_001"
        { updateInterval := some (-5) }).sensorConfigs.lookup "wave_001").map
      SensorConfig.updateInterval = some (-5) := by
  rfl

/-- Claim C6 as amended: a reconfiguration with an unknown deviceId is a
silent no-op on the whole state (no error value exists in the source), and a
reconfiguration of a registered device stores the merged patch without any
validation — in particular a sampling interval ≤ 0 is applied, not
rejected. -/
theorem c6_reconfiguration_unvalidated :
    (∀ (s : IoTState) (sensorId : String) (p : ConfigPatch),
      s.sensorConfigs.lookup sensorId = none → updateSensorConfig s sensorId p = s) ∧
    (∀ (s : IoTState) (sensorId : String) (p : ConfigPatch)
      (existing : SensorConfig),
      s.sensorConfigs.lookup sensorId = some existing →
      (updateSensorConfig s sensorId p).sensorConfigs.lookup sensorId =
        some (mergeConfig existing p)) := by
  constructor
  · intro s sensorId p h
    unfold updateSensorConfig
    rw [h]
  · intro s sensorId p existing h
    unfold updateSensorConfig
    rw [h]
    exact lookup_setKey s.sensorConfigs sensorId (mergeConfig existing p)

/-- Witness for C6 (amended): the unknown id "ghost_001" leaves the
initialized state untouched, and patching "wave_001" with interval −5 stores
the merge. -/
theorem c6_reconfiguration_unvalidated_witness :
    updateSensorConfig (initState 0) "ghost_001" { updateInterval := some (-5) } =
      initState 0 ∧
    (updateSensorConfig (initState 0) "wave_001"
        { updateInterval := some (-5) }).sensorConfigs.lookup "wave_001" =
      some (mergeConfig
        ⟨"wave_001", SensorType.wave, ⟨40.7128, -74.0060, "New York Harbor Alpha"⟩,
          30, true, 0 - 7 * msPerDay⟩
        { updateInterval := some (-5) }) :=
  ⟨c6_reconfiguration_unvalidated.1 (initState 0) "ghost_001"
      { updateInterval := some (-5) } (by rfl),
    c6_reconfiguration_unvalidated.2 (initState 0) "wave_001"
      { updateInterval := some (-5) }
      ⟨"wave_001", SensorType.wave, ⟨40.7128, -74.0060, "New York Harbor Alpha"⟩,
        30, true, 0 - 7 * msPerDay⟩ (by rfl)⟩

/-- Counterexample to claim C5 as stated: a cluster holding a single assigned
point with radius 0 is graded 'high', not 'low' — in JS the density
`1 / (Math.PI * 0 * 0)` is `Infinity` and `Infinity > 10` holds; there is no
division-by-zero guard in `calculateClusterRisk`. -/
theorem c5_counterexample_zero_radius_high :
    clusterRiskOf ⟨⟨0, 0⟩, [⟨0, 0, 0⟩], 0⟩ = RiskLevel.high ∧
    RiskLevel.high ≠ RiskLevel.low := by
  decide

/-- Claim C5 as amended: for a non-empty cluster, density above 10 gives
'high', above 5 'medium', otherwise 'low' — except that radius 0 gives
'high' (infinite density), not 'low' as claimed. -/
theorem c5_cluster_risk_amended (count : ℕ) (radius : ℚ) (hc : 1 ≤ count) :
    (radius = 0 → calculateClusterRisk count radius = RiskLevel.high) ∧
    (radius ≠ 0 →
      ((calculateClusterRisk count radius = RiskLevel.high ↔
        (count : ℚ) / (jsPi * radius * radius) > 10) ∧
      (calculateClusterRisk count radius = RiskLevel.medium ↔
        ((count : ℚ) / (jsPi * radius * radius) ≤ 10 ∧
          (count : ℚ) / (jsPi * radius * radius) > 5)) ∧
      (calculateClusterRisk count radius = RiskLevel.low ↔
        (count : ℚ) / (jsPi * radius * radius) ≤ 5))) := by
  constructor
  · intro h
    subst h
    have hcount : count ≠ 0 := by omega
    simp [calculateClusterRisk, hcount]
  · intro h
    simp only [calculateClusterRisk, if_neg h]
    split_ifs with h1 h2 <;> simp_all <;> intros <;> linarith

/-- Witness for C5 (amended) at count = 1, radius = 0. -/
theorem c5_cluster_risk_amended_witness :
    ((0 : ℚ) = 0 → calculateClusterRisk 1 0 = RiskLevel.high) ∧
    ((0 : ℚ) ≠ 0 →
      ((calculateClusterRisk 1 0 = RiskLevel.high ↔
        ((1 : ℕ) : ℚ) / (jsPi * 0 * 0) > 10) ∧
      (calculateClusterRisk 1 0 = RiskLevel.medium ↔
        (((1 : ℕ) : ℚ) / (jsPi * 0 * 0) ≤ 10 ∧
          ((1 : ℕ) : ℚ) / (jsPi * 0 * 0) > 5)) ∧
      (calculateClusterRisk 1 0 = RiskLevel.low ↔
        ((1 : ℕ) : ℚ) / (jsPi * 0 * 0) ≤ 5))) :=
  c5_cluster_risk_amended 1 0 (le_refl 1)

/-! ### Properties of the stable sort and the strict-min scan -/

/-- Inserting is a permutation of consing. -/
theorem perm_insertByKey {α : Type} (key : α → ℚ) (x : α) (l : List α) :
    (insertByKey key x l).Perm (x :: l) := by
  induction l with
  | nil => exact List.Perm.refl _
  | cons b t ih =>
    simp only [insertByKey]
    split_ifs with hx
    · exact List.Perm.refl _
    · exact (List.Perm.cons b ih).trans (List.Perm.swap x b t)

/-- The fold of stable inserts permutes the input onto the accumulator. -/
theorem perm_foldl_insertByKey {α : Type} (key : α → ℚ) :
    ∀ (l acc : List α),
      (l.foldl (fun a x => insertByKey key x a) acc).Perm (l ++ acc) := by
  intro l
  induction l with
  | nil => intro acc; simp
  | cons x t ih =>
    intro acc
    simp only [List.foldl_cons, List.cons_append]
    exact (ih (insertByKey key x acc)).trans
      ((List.Perm.append_left t (perm_insertByKey key x acc)).trans List.perm_middle)

/-- The stable sort is a permutation of its input. -/
theorem perm_sortByKey {α : Type} (key : α → ℚ) (l : List α) :
    (sortByKey key l).Perm l := by
  simpa using perm_foldl_insertByKey key l []

/-- Membership in a stable insert. -/
theorem mem_insertByKey {α : Type} (key : α → ℚ) (x : α) (l : List α) (y : α) :
    y ∈ insertByKey key x l ↔ y = x ∨ y ∈ l := by
  rw [(perm_insertByKey key x l).mem_iff, List.mem_cons]

/-- Stable insertion preserves sortedness by the key. -/
theorem pairwise_insertByKey {α : Type} (key : α → ℚ) (x : α) (l : List α)
    (h : l.Pairwise (fun a b => key a ≤ key b)) :
    (insertByKey key x l).Pairwise (fun a b => key a ≤ key b) := by
  induction l with
  | nil => simp [insertByKey]
  | cons b t ih =>
    rw [List.pairwise_cons] at h
    obtain ⟨hb, ht⟩ := h
    simp only [insertByKey]
    split_ifs with hx
    · refine List.Pairwise.cons ?_ (List.Pairwise.cons hb ht)
      intro y hy
      rcases List.mem_cons.mp hy with rfl | hyt
      · exact le_of_lt hx
      · exact le_of_lt (lt_of_lt_of_le hx (hb y hyt))
    · refine List.Pairwise.cons ?_ (ih ht)
      intro y hy
      rcases (mem_insertByKey key x t y).mp hy with rfl | hyt
      · exact not_lt.mp hx
      · exact hb y hyt

/-- The stable sort is sorted ascending by the key. -/
theorem pairwise_sortByKey {α : Type} (key : α → ℚ) (l : List α) :
    (sortByKey key l).Pairwise (fun a b => key a ≤ key b) := by
  suffices h : ∀ (l acc : List α), acc.Pairwise (fun a b => key a ≤ key b) →
      (l.foldl (fun a x => insertByKey key x a) acc).Pairwise
        (fun a b => key a ≤ key b) from h l [] (by simp)
  intro l
  induction l with
  | nil => intro acc hacc; simpa using hacc
  | cons x t ih =>
    intro acc hacc
    exact ih (insertByKey key x acc) (pairwise_insertByKey key x acc hacc)

/-- The severity weight is nonnegative. -/
theorem severityWeight_nonneg (r : RiskLevel) : 0 ≤ severityWeight r := by
  cases r <;> norm_num [severityWeight]

/-- Claim C7: proximity assessment selects exactly the zones whose reference
vertex is within the radius, sorted ascending by distance, and the returned
score is the claimed per-zone sum, rounded and capped at 100, hence always in
[0, 100]. -/
theorem c7_proximity_selection_and_score (d : DistFn) (zones : List RiskZone)
    (q : Coord) (radius : ℚ) (hr : 0 < radius) :
    (analyzeProximityRisks d zones q radius).nearbyRiskZones.Perm
      ((zones.map fun z => (z, d q (refVertex z))).filter fun zd => zd.2 ≤ radius) ∧
    (analyzeProximityRisks d zones q radius).nearbyRiskZones.Pairwise
      (fun a b => a.2 ≤ b.2) ∧
    (∀ zd ∈ (analyzeProximityRisks d zones q radius).nearbyRiskZones,
      zd.1 ∈ zones ∧ zd.2 = d q (refVertex zd.1) ∧ zd.2 ≤ radius) ∧
    (analyzeProximityRisks d zones q radius).riskScore =
      min 100 (jsRound (specProximityScore d zones q radius)) ∧
    0 ≤ (analyzeProximityRisks d zones q radius).riskScore ∧
    (analyzeProximityRisks d zones q radius).riskScore ≤ 100 := by
  have hproj1 : (analyzeProximityRisks d zones q radius).nearbyRiskZones =
      sortByKey (fun zd : RiskZone × ℚ => zd.2)
        ((zones.map fun z => (z, d q (refVertex z))).filter fun zd => zd.2 ≤ radius) := rfl
  have hproj2 : (analyzeProximityRisks d zones q radius).riskScore =
      min 100 (jsRound (((sortByKey (fun zd : RiskZone × ℚ => zd.2)
          ((zones.map fun z => (z, d q (refVertex z))).filter
            fun zd => zd.2 ≤ radius)).map
        (fun zd => max 0 ((radius - zd.2) / radius) *
          severityWeight zd.1.riskLevel * 20)).sum)) := rfl
  have hperm := perm_sortByKey (fun zd : RiskZone × ℚ => zd.2)
    ((zones.map fun z => (z, d q (refVertex z))).filter fun zd => zd.2 ≤ radius)
  have hsum : ((sortByKey (fun zd : RiskZone × ℚ => zd.2)
      ((zones.map fun z => (z, d q (refVertex z))).filter
        fun zd => zd.2 ≤ radius)).map
      (fun zd => max 0 ((radius - zd.2) / radius) *
        severityWeight zd.1.riskLevel * 20)).sum =
      specProximityScore d zones q radius := by
    rw [List.Perm.sum_eq (List.Perm.map _ hperm)]
    unfold specProximityScore
    rw [List.filter_map, List.map_map]
    rfl
  have hS : 0 ≤ specProximityScore d zones q radius := by
    apply List.sum_nonneg
    intro x hx
    rw [List.mem_map] at hx
    obtain ⟨z, hz, rfl⟩ := hx
    exact mul_nonneg (mul_nonneg (le_max_left 0 _)
      (severityWeight_nonneg z.riskLevel)) (by norm_num)
  refine ⟨?_, ?_, ?_, ?_, ?_, ?_⟩
  · rw [hproj1]
    exact hperm
  · rw [hproj1]
    exact pairwise_sortByKey _ _
  · intro zd hmem
    rw [hproj1] at hmem
    have hin := hperm.mem_iff.mp hmem
    rw [List.mem_filter] at hin
    obtain ⟨hmap, hle⟩ := hin
    rw [List.mem_map] at hmap
    obtain ⟨z, hz, rfl⟩ := hmap
    exact ⟨hz, rfl, by simpa using hle⟩
  · rw [hproj2, hsum]
  · rw [hproj2, hsum]
    refine le_min (by norm_num) ?_
    unfold jsRound
    exact Int.le_floor.mpr (by push_cast; linarith)
  · rw [hproj2]
    exact min_le_left _ _

/-- A concrete executable distance function, used only to instantiate the
abstract `calculateDistance` parameter in witnesses and counterexamples. -/
def taxicab : DistFn := fun a b => |a.lat - b.lat| + |a.lon - b.lon|

/-- Witness for C7 at one zone with reference vertex (0, 1), query (0, 0),
radius 10. -/
theorem c7_proximity_selection_and_score_witness :
    (analyzeProximityRisks taxicab [⟨"z1", "Z1", [⟨0, 1⟩], RiskLevel.high, [], []⟩]
        ⟨0, 0⟩ 10).nearbyRiskZones.Perm
      (([⟨"z1", "Z1", [⟨0, 1⟩], RiskLevel.high, [], []⟩].map
        fun z => (z, taxicab ⟨0, 0⟩ (refVertex z))).filter fun zd => zd.2 ≤ 10) ∧
    (analyzeProximityRisks taxicab [⟨"z1", "Z1", [⟨0, 1⟩], RiskLevel.high, [], []⟩]
        ⟨0, 0⟩ 10).nearbyRiskZones.Pairwise (fun a b => a.2 ≤ b.2) ∧
    (∀ zd ∈ (analyzeProximityRisks taxicab
        [⟨"z1", "Z1", [⟨0, 1⟩], RiskLevel.high, [], []⟩] ⟨0, 0⟩ 10).nearbyRiskZones,
      zd.1 ∈ [⟨"z1", "Z1", [⟨0, 1⟩], RiskLevel.high, [], []⟩] ∧
      zd.2 = taxicab ⟨0, 0⟩ (refVertex zd.1) ∧ zd.2 ≤ 10) ∧
    (analyzeProximityRisks taxicab [⟨"z1", "Z1", [⟨0, 1⟩], RiskLevel.high, [], []⟩]
        ⟨0, 0⟩ 10).riskScore =
      min 100 (jsRound (specProximityScore taxicab
        [⟨"z1", "Z1", [⟨0, 1⟩], RiskLevel.high, [], []⟩] ⟨0, 0⟩ 10)) ∧
    0 ≤ (analyzeProximityRisks taxicab
        [⟨"z1", "Z1", [⟨0, 1⟩], RiskLevel.high, [], []⟩] ⟨0, 0⟩ 10).riskScore ∧
    (analyzeProximityRisks taxicab
        [⟨"z1", "Z1", [⟨0, 1⟩], RiskLevel.high, [], []⟩] ⟨0, 0⟩ 10).riskScore ≤ 100 :=
  c7_proximity_selection_and_score taxicab
    [⟨"z1", "Z1", [⟨0, 1⟩], RiskLevel.high, [], []⟩] ⟨0, 0⟩ 10 (by norm_num)

/-! ### Lemmas about the strict-min scan -/

/-- Folding the strict-min step from a seeded state yields a first minimum. -/
theorem foldl_jsMinStep_min {α : Type} (f : α → ℚ) :
    ∀ (l : List α) (a : α),
      ∃ m, l.foldl (fun acc x => some (jsMinStep f acc x)) (some a) = some m ∧
        (m = a ∨ m ∈ l) ∧ f m ≤ f a ∧ ∀ x ∈ l, f m ≤ f x := by
  intro l
  induction l with
  | nil =>
    intro a
    exact ⟨a, rfl, Or.inl rfl, le_refl _, by simp⟩
  | cons x t ih =>
    intro a
    simp only [List.foldl_cons]
    by_cases hx : f x < f a
    · have hstep : jsMinStep f (some a) x = x := by simp [jsMinStep, hx]
      rw [hstep]
      obtain ⟨m, hm, hmem, hle, hall⟩ := ih x
      refine ⟨m, hm, ?_, le_trans hle (le_of_lt hx), ?_⟩
      · rcases hmem with rfl | h
        · exact Or.inr (List.mem_cons_self m t)
        · exact Or.inr (List.mem_cons_of_mem x h)
      · intro y hy
        rcases List.mem_cons.mp hy with rfl | hyt
        · exact hle
        · exact hall y hyt
    · have hstep : jsMinStep f (some a) x = a := by simp [jsMinStep, hx]
      rw [hstep]
      obtain ⟨m, hm, hmem, hle, hall⟩ := ih a
      refine ⟨m, hm, ?_, hle, ?_⟩
      · rcases hmem with rfl | h
        · exact Or.inl rfl
        · exact Or.inr (List.mem_cons_of_mem x h)
      · intro y hy
        rcases List.mem_cons.mp hy with rfl | hyt
        · exact le_trans hle (not_lt.mp hx)
        · exact hall y hyt

/-- On a non-empty list the scan returns an element attaining the minimum. -/
theorem jsMinBy_min {α : Type} (f : α → ℚ) (l : List α) (hl : l ≠ []) :
    ∃ m, jsMinBy f l = some m ∧ m ∈ l ∧ ∀ x ∈ l, f m ≤ f x := by
  cases l with
  | nil => exact absurd rfl hl
  | cons x t =>
    unfold jsMinBy
    simp only [List.foldl_cons]
    have hstep : jsMinStep f none x = x := rfl
    rw [hstep]
    obtain ⟨m, hm, hmem, hle, hall⟩ := foldl_jsMinStep_min f t x
    refine ⟨m, hm, ?_, ?_⟩
    · rcases hmem with rfl | h
      · exact List.mem_cons_self m t
      · exact List.mem_cons_of_mem x h
    · intro y hy
      rcases List.mem_cons.mp hy with rfl | hyt
      · exact hle
      · exact hall y hyt

/-- The head of one stable insert is the strict-min step of the old head. -/
theorem head?_insertByKey {α : Type} (key : α → ℚ) (x : α) (l : List α) :
    (insertByKey key x l).head? = some (jsMinStep key l.head? x) := by
  cases l with
  | nil => rfl
  | cons b t =>
    by_cases hx : key x < key b
    · simp [insertByKey, jsMinStep, hx]
    · simp [insertByKey, jsMinStep, hx]

/-- The head of the stable-insert fold is the strict-min fold of the head. -/
theorem head?_foldl_insertByKey {α : Type} (key : α → ℚ) :
    ∀ (l acc : List α),
      (l.foldl (fun a x => insertByKey key x a) acc).head? =
        l.foldl (fun a x => some (jsMinStep key a x)) acc.head? := by
  intro l
  induction l with
  | nil => intro acc; rfl
  | cons x t ih =>
    intro acc
    simp only [List.foldl_cons]
    rw [ih (insertByKey key x acc), head?_insertByKey]

/-- The head of the JS stable sort is exactly the JS strict-min scan: the
first element attaining the minimal key. -/
theorem head?_sortByKey {α : Type} (key : α → ℚ) (l : List α) :
    (sortByKey key l).head? = jsMinBy key l := by
  unfold sortByKey jsMinBy
  exact head?_foldl_insertByKey key l []

/-- Clipping an optional running minimum at a cutoff `c`. -/
def capOpt {α : Type} (f : α → ℚ) (c : ℚ) : Option α → Option α
  | none => none
  | some u => if f u ≤ c then some u else none

/-- The strict-min fold over the `≤ c` filtered list is the clipped
strict-min fold over the whole list. -/
theorem foldl_jsMinStep_filter {α : Type} (f : α → ℚ) (c : ℚ) :
    ∀ (l : List α) (accU accF : Option α), accF = capOpt f c accU →
      (l.filter fun x => f x ≤ c).foldl
          (fun a x => some (jsMinStep f a x)) accF =
        capOpt f c (l.foldl (fun a x => some (jsMinStep f a x)) accU) := by
  intro l
  induction l with
  | nil =>
    intro accU accF h
    simpa using h
  | cons x t ih =>
    intro accU accF h
    simp only [List.filter_cons]
    by_cases hx : f x ≤ c
    · rw [if_pos (by simpa using hx)]
      simp only [List.foldl_cons]
      apply ih
      subst h
      cases accU with
      | none => simp [capOpt, jsMinStep, hx]
      | some u =>
        by_cases hu : f u ≤ c
        · simp only [capOpt, if_pos hu, jsMinStep]
          by_cases hxu : f x < f u
          · simp [capOpt, hxu, hx]
          · simp [capOpt, hxu, hu]
        · have hxu : f x < f u := lt_of_le_of_lt hx (not_le.mp hu)
          simp [capOpt, if_neg hu, jsMinStep, hxu, hx]
    · rw [if_neg (by simpa using hx)]
      simp only [List.foldl_cons]
      apply ih
      subst h
      cases accU with
      | none => simp [capOpt, jsMinStep, hx]
      | some u =>
        by_cases hu : f u ≤ c
        · have hxu : ¬f x < f u := by
            intro hlt
            exact hx (le_trans (le_of_lt hlt) hu)
          simp [capOpt, jsMinStep, hxu, hu]
        · simp only [capOpt, if_neg hu, jsMinStep]
          by_cases hxu : f x < f u
          · simp [capOpt, hxu, hx]
          · simp [capOpt, hxu, hu]

/-- If the overall first minimum passes the cutoff filter, it is also the
first minimum of the filtered list. -/
theorem jsMinBy_filter_le {α : Type} (f : α → ℚ) (c : ℚ) (l : List α) (m : α)
    (h : jsMinBy f l = some m) (hm : f m ≤ c) :
    jsMinBy f (l.filter fun x => f x ≤ c) = some m := by
  unfold jsMinBy at *
  rw [foldl_jsMinStep_filter f c l none none rfl, h]
  simp [capOpt, hm]

/-- The strict-min scan commutes with mapping. -/
theorem jsMinBy_map {α β : Type} (g : β → ℚ) (h : α → β) (l : List α) :
    jsMinBy g (l.map h) = Option.map h (jsMinBy (fun x => g (h x)) l) := by
  suffices hs : ∀ (l : List α) (acc : Option α),
      (l.map h).foldl (fun a x => some (jsMinStep g a x)) (Option.map h acc) =
        Option.map h (l.foldl (fun a x => some (jsMinStep (fun x => g (h x)) a x)) acc) by
    simpa using hs l none
  intro l
  induction l with
  | nil => intro acc; rfl
  | cons x t ih =>
    intro acc
    simp only [List.map_cons, List.foldl_cons]
    have hstep : jsMinStep g (Option.map h acc) (h x) =
        h (jsMinStep (fun y => g (h y)) acc x) := by
      cases acc with
      | none => rfl
      | some m => simp [jsMinStep, apply_ite h]
    rw [hstep, show some (h (jsMinStep (fun y => g (h y)) acc x)) =
      Option.map h (some (jsMinStep (fun y => g (h y)) acc x)) from rfl, ih]

/-- Counterexample to claim C8 as stated: with one zone whose only route
starts at (0, 0) and a query point at distance 30 km, a nearest route is
returned (estimated time round(30 × 3) = 90), but the alternative-routes list
is empty — it does not include the nearest route, which is farther than the
20 km cutoff of line 225. -/
theorem c8_counterexample_nearest_beyond_20km :
    (getEvacuationAnalysis taxicab
        [⟨"z", "Z", [⟨0, 0⟩], RiskLevel.low, [], [⟨"R", [⟨0, 0⟩], 100⟩]⟩]
        ⟨30, 0⟩).1 = some ⟨"R", 30, 90, [⟨0, 0⟩]⟩ ∧
    (getEvacuationAnalysis taxicab
        [⟨"z", "Z", [⟨0, 0⟩], RiskLevel.low, [], [⟨"R", [⟨0, 0⟩], 100⟩]⟩]
        ⟨30, 0⟩).2 = [] := by
  constructor <;>
    · simp only [getEvacuationAnalysis, routeHeadDist, taxicab, jsMinBy, jsMinStep,
        jsRound, sortByKey, List.flatMap, List.foldl, List.filter, List.map,
        List.join, List.append]
      norm_num

/-- Claim C8 as amended: the nearest route is a route of minimal
first-coordinate distance with estimated time round(distance × 3); the
alternatives are exactly the routes within 20 km — the returned list is the
top-3 truncation of a sorted permutation of *all* of them (completeness up to
the truncation), ascending by distance — and they include (lead with) the
nearest route exactly when its distance is at most 20 km; a query point
farther than 20 km from every route head gets an empty alternatives list
that excludes the nearest route. -/
theorem c8_evacuation_amended (d : DistFn) (zones : List RiskZone) (q : Coord) :
    (zones.flatMap RiskZone.evacuationRoutes = [] →
      (getEvacuationAnalysis d zones q).1 = none ∧
      (getEvacuationAnalysis d zones q).2 = []) ∧
    (zones.flatMap RiskZone.evacuationRoutes ≠ [] →
      ∃ r ∈ zones.flatMap RiskZone.evacuationRoutes,
        (getEvacuationAnalysis d zones q).1 =
          some ⟨r.name, routeHeadDist d q r, jsRound (routeHeadDist d q r * 3),
            r.coordinates⟩ ∧
        (∀ r' ∈ zones.flatMap RiskZone.evacuationRoutes,
          routeHeadDist d q r ≤ routeHeadDist d q r') ∧
        (routeHeadDist d q r ≤ 20 →
          (getEvacuationAnalysis d zones q).2.head? = some (mkAltRoute d q r))) ∧
    (∀ a ∈ (getEvacuationAnalysis d zones q).2,
      a.distance ≤ 20 ∧
        ∃ r' ∈ zones.flatMap RiskZone.evacuationRoutes, a = mkAltRoute d q r') ∧
    (getEvacuationAnalysis d zones q).2.Pairwise
      (fun a b => a.distance ≤ b.distance) ∧
    (getEvacuationAnalysis d zones q).2.length ≤ 3 ∧
    (∃ s : List AltRoute,
      s.Perm (((zones.flatMap RiskZone.evacuationRoutes).filter
        fun r => routeHeadDist d q r ≤ 20).map (mkAltRoute d q)) ∧
      s.Pairwise (fun a b => a.distance ≤ b.distance) ∧
      (getEvacuationAnalysis d zones q).2 = s.take 3) := by
  have hp1 : (getEvacuationAnalysis d zones q).1 =
      (jsMinBy (routeHeadDist d q) (zones.flatMap RiskZone.evacuationRoutes)).map
        (fun r => ⟨r.name, routeHeadDist d q r,
          jsRound (routeHeadDist d q r * 3), r.coordinates⟩) := rfl
  have hp2 : (getEvacuationAnalysis d zones q).2 =
      (sortByKey AltRoute.distance
        (((zones.flatMap RiskZone.evacuationRoutes).filter
          fun r => routeHeadDist d q r ≤ 20).map (mkAltRoute d q))).take 3 := rfl
  refine ⟨?_, ?_, ?_, ?_, ?_, ?_⟩
  · intro h
    rw [hp1, hp2, h]
    exact ⟨rfl, rfl⟩
  · intro h
    obtain ⟨m, hm, hmem, hmin⟩ := jsMinBy_min (routeHeadDist d q)
      (zones.flatMap RiskZone.evacuationRoutes) h
    refine ⟨m, hmem, ?_, hmin, ?_⟩
    · rw [hp1, hm]
      rfl
    · intro h20
      rw [hp2]
      have hfm := jsMinBy_filter_le (routeHeadDist d q) 20
        (zones.flatMap RiskZone.evacuationRoutes) m hm h20
      have hmap := jsMinBy_map AltRoute.distance (mkAltRoute d q)
        ((zones.flatMap RiskZone.evacuationRoutes).filter
          fun r => routeHeadDist d q r ≤ 20)
      have hcomp : jsMinBy
          (fun x => AltRoute.distance (mkAltRoute d q x))
          ((zones.flatMap RiskZone.evacuationRoutes).filter
            fun r => routeHeadDist d q r ≤ 20) = some m := hfm
      rw [hcomp] at hmap
      have hhead := head?_sortByKey AltRoute.distance
        (((zones.flatMap RiskZone.evacuationRoutes).filter
          fun r => routeHeadDist d q r ≤ 20).map (mkAltRoute d q))
      rw [hmap] at hhead
      cases hsort : sortByKey AltRoute.distance
          (((zones.flatMap RiskZone.evacuationRoutes).filter
            fun r => routeHeadDist d q r ≤ 20).map (mkAltRoute d q)) with
      | nil => rw [hsort] at hhead; exact absurd hhead (by simp)
      | cons a tl =>
        rw [hsort] at hhead
        simp only [List.head?_cons, Option.some_inj] at hhead
        simp [hsort, hhead]
  · intro a ha
    rw [hp2] at ha
    have ha2 : a ∈ sortByKey AltRoute.distance
        (((zones.flatMap RiskZone.evacuationRoutes).filter
          fun r => routeHeadDist d q r ≤ 20).map (mkAltRoute d q)) :=
      List.mem_of_mem_take ha
    have ha3 := (perm_sortByKey AltRoute.distance _).mem_iff.mp ha2
    rw [List.mem_map] at ha3
    obtain ⟨r', hr', rfl⟩ := ha3
    rw [List.mem_filter] at hr'
    obtain ⟨hr'mem, hr'le⟩ := hr'
    refine ⟨by simpa [mkAltRoute, routeHeadDist] using hr'le, r', hr'mem, rfl⟩
  · rw [hp2]
    exact (pairwise_sortByKey AltRoute.distance _).sublist (List.take_sublist 3 _)
  · rw [hp2]
    exact List.length_take_le 3 _
  · exact ⟨sortByKey AltRoute.distance
      (((zones.flatMap RiskZone.evacuationRoutes).filter
        fun r => routeHeadDist d q r ≤ 20).map (mkAltRoute d q)),
      perm_sortByKey _ _, pairwise_sortByKey _ _, hp2⟩

/-- Witness for C8 (amended) with one zone whose route head is 5 km from the
query point. -/
theorem c8_evacuation_amended_witness :
    ∃ r ∈ [(⟨"z", "Z", [⟨0, 0⟩], RiskLevel.low, [],
        [⟨"R", [⟨5, 0⟩], 100⟩]⟩ : RiskZone)].flatMap RiskZone.evacuationRoutes,
      (getEvacuationAnalysis taxicab
          [⟨"z", "Z", [⟨0, 0⟩], RiskLevel.low, [], [⟨"R", [⟨5, 0⟩], 100⟩]⟩]
          ⟨0, 0⟩).1 =
        some ⟨r.name, routeHeadDist taxicab ⟨0, 0⟩ r,
          jsRound (routeHeadDist taxicab ⟨0, 0⟩ r * 3), r.coordinates⟩ ∧
      (∀ r' ∈ [(⟨"z", "Z", [⟨0, 0⟩], RiskLevel.low, [],
          [⟨"R", [⟨5, 0⟩], 100⟩]⟩ : RiskZone)].flatMap RiskZone.evacuationRoutes,
        routeHeadDist taxicab ⟨0, 0⟩ r ≤ routeHeadDist taxicab ⟨0, 0⟩ r') ∧
      (routeHeadDist taxicab ⟨0, 0⟩ r ≤ 20 →
        (getEvacuationAnalysis taxicab
            [⟨"z", "Z", [⟨0, 0⟩], RiskLevel.low, [], [⟨"R", [⟨5, 0⟩], 100⟩]⟩]
            ⟨0, 0⟩).2.head? = some (mkAltRoute taxicab ⟨0, 0⟩ r)) :=
  (c8_evacuation_amended taxicab
    [⟨"z", "Z", [⟨0, 0⟩], RiskLevel.low, [], [⟨"R", [⟨5, 0⟩], 100⟩]⟩]
    ⟨0, 0⟩).2.1 (by decide)

/-! ### Lemmas for the clustering refinement -/

/-- `getD` through `map`, below the length. -/
theorem getD_map_of_lt {α β : Type} (f : α → β) :
    ∀ (l : List α) (j : ℕ), j < l.length → ∀ (da : α) (db : β),
      (l.map f).getD j db = f (l.getD j da) := by
  intro l
  induction l with
  | nil =>
    intro j hj
    simp at hj
  | cons a t ih =>
    intro j hj da db
    cases j with
    | zero => rfl
    | succ n =>
      simp only [List.map_cons, List.getD_cons_succ]
      exact ih n (by simpa using hj) da db

/-- Filtering a mapped list is a `filterMap` over the source. -/
theorem filter_map_eq_filterMap {α β : Type} (g : α → β) (p : β → Bool)
    (l : List α) :
    (l.map g).filter p = l.filterMap fun a => if p (g a) then some (g a) else none := by
  induction l with
  | nil => rfl
  | cons a t ih =>
    simp only [List.map_cons, List.filter_cons, List.filterMap_cons]
    by_cases hp : p (g a)
    · simp [hp, ih]
    · simp [hp, ih]

/-- The scan result never exceeds the scanned bound. -/
theorem scanArgmin_le (f : ℕ → ℚ) (n : ℕ) : scanArgmin f n ≤ n := by
  induction n with
  | zero => exact le_refl 0
  | succ n ih =>
    unfold scanArgmin
    dsimp only
    split_ifs
    · exact le_refl _
    · exact le_trans ih (Nat.le_succ n)

/-- The scan result attains the minimum over `{0, …, n}`. -/
theorem scanArgmin_min (f : ℕ → ℚ) (n : ℕ) :
    ∀ j ≤ n, f (scanArgmin f n) ≤ f j := by
  induction n with
  | zero =>
    intro j hj
    rw [Nat.le_zero.mp hj]
    exact le_refl _
  | succ n ih =>
    intro j hj
    unfold scanArgmin
    dsimp only
    rcases Nat.le_succ_iff_eq_or_le.mp hj with rfl | hjn
    · split_ifs with hlt
      · exact le_refl _
      · exact not_lt.mp hlt
    · split_ifs with hlt
      · exact le_of_lt (lt_of_lt_of_le hlt (ih j hjn))
      · exact ih j hjn

/-- Strictly earlier indices than the scan result have strictly larger
values: the strict `<` of the scan keeps the earliest minimum. -/
theorem scanArgmin_first (f : ℕ → ℚ) (n : ℕ) :
    ∀ j < scanArgmin f n, f (scanArgmin f n) < f j := by
  induction n with
  | zero =>
    intro j hj
    simp [scanArgmin] at hj
  | succ n ih =>
    intro j hj
    unfold scanArgmin at hj ⊢
    dsimp only at hj ⊢
    split_ifs at hj ⊢ with hlt
    · exact lt_of_lt_of_le hlt (scanArgmin_min f n j (Nat.lt_succ_iff.mp hj))
    · exact ih j hj

/-- One code iteration, projected to the centroids, is one spec iteration. -/
theorem map_center_kmeansStep (d : DistFn) (points : List GeoPoint)
    (cs : List KCluster) :
    (kmeansStep d points cs).map KCluster.center =
      specUpdate d points (cs.map KCluster.center) := by
  unfold kmeansStep specUpdate specAssign
  rw [List.map_map, List.length_map]
  apply List.map_congr_left
  intro j hj
  rw [List.mem_range] at hj
  by_cases hA :
      (points.filter fun p => nearestIdx d (cs.map KCluster.center) p == j).isEmpty
  · simp only [Function.comp_apply, hA, if_true]
    rw [getD_map_of_lt KCluster.center cs j hj default]
  · simp only [Function.comp_apply, hA, if_false]
    rfl

/-- Iterated code steps, projected to the centroids, are iterated spec
steps. -/
theorem map_center_iterate (d : DistFn) (points : List GeoPoint) (n : ℕ)
    (cs : List KCluster) :
    ((kmeansStep d points)^[n] cs).map KCluster.center =
      (specUpdate d points)^[n] (cs.map KCluster.center) := by
  induction n generalizing cs with
  | zero => rfl
  | succ n ih =>
    rw [Function.iterate_succ_apply', Function.iterate_succ_apply',
      map_center_kmeansStep, ih]


/-- The final code iteration, with empty clusters dropped, equals the
spec-side report computed from the same centroids. -/
theorem kmeansStep_filter_eq (d : DistFn) (points : List GeoPoint)
    (cs : List KCluster) :
    (kmeansStep d points cs).filter (fun c => !c.points.isEmpty) =
      (List.range (cs.map KCluster.center).length).filterMap fun j =>
        if (specAssign d points (cs.map KCluster.center) j).isEmpty then none
        else some
          { center := meanPoint (specAssign d points (cs.map KCluster.center) j),
            points := specAssign d points (cs.map KCluster.center) j,
            radius := maxDist d
              (meanPoint (specAssign d points (cs.map KCluster.center) j))
              (specAssign d points (cs.map KCluster.center) j) } := by
  unfold kmeansStep specAssign
  rw [filter_map_eq_filterMap, List.length_map]
  apply List.filterMap_congr
  intro j hj
  by_cases hA : (points.filter fun p =>
      nearestIdx d (cs.map KCluster.center) p == j).isEmpty
  · simp [hA]
  · simp [hA]

/-- Claim C4: on a non-empty batch with k ≥ 1 sampled centroids,
`performClustering` equals the spec-side description — exactly 10 iterations
of assign-to-nearest (ties to the earliest centroid) then mean-recompute,
empty clusters dropped, each survivor reporting its assigned set, the mean
centroid, and radius = max distance from the centroid to an assigned point —
and the nearest-centroid index really is a minimizer, with strictly smaller
distance than every earlier centroid on ties. -/
theorem c4_clustering_matches_spec (d : DistFn) (points : List GeoPoint)
    (k : ℕ) (seeds : List ℕ) (hp : points ≠ []) (hk : 1 ≤ k)
    (hlen : seeds.length = k) (hseeds : ∀ i ∈ seeds, i < points.length) :
    performClustering d points seeds = specClustering d points seeds ∧
    (∀ c ∈ performClustering d points seeds,
      c.points ≠ [] ∧ c.center = meanPoint c.points ∧
      c.radius = maxDist d c.center c.points) ∧
    (∀ (centers : List Coord) (p : GeoPoint), centers ≠ [] →
      nearestIdx d centers p < centers.length ∧
      (∀ j < centers.length,
        d p.coord (centers.getD (nearestIdx d centers p) default) ≤
          d p.coord (centers.getD j default)) ∧
      ∀ j < nearestIdx d centers p,
        d p.coord (centers.getD (nearestIdx d centers p) default) <
          d p.coord (centers.getD j default)) := by
  have hne : ¬points.isEmpty = true := by simp [hp]
  have hcenters :
      ((kmeansStep d points)^[9] (initClusters points seeds)).map KCluster.center =
        (specUpdate d points)^[9]
          (seeds.map fun i => (points.getD i default).coord) := by
    rw [map_center_iterate]
    congr 1
    unfold initClusters
    rw [List.map_map]
    rfl
  have hmain : performClustering d points seeds = specClustering d points seeds := by
    unfold performClustering specClustering
    rw [if_neg hne, if_neg hne,
      show (10 : ℕ) = 9 + 1 from rfl, Function.iterate_succ_apply',
      kmeansStep_filter_eq, hcenters]
  refine ⟨hmain, ?_, ?_⟩
  · intro c hc
    rw [hmain] at hc
    unfold specClustering at hc
    rw [if_neg hne] at hc
    dsimp only at hc
    rw [List.mem_filterMap] at hc
    obtain ⟨j, hj, hcj⟩ := hc
    split at hcj
    · exact absurd hcj (by simp)
    · rename_i hA
      rw [Option.some_inj] at hcj
      subst hcj
      exact ⟨by simpa using hA, rfl, rfl⟩
  · intro centers p hc
    unfold nearestIdx
    rw [if_neg (by simp [hc])]
    have hpos : 0 < centers.length := List.length_pos.mpr hc
    refine ⟨?_, ?_, ?_⟩
    · have := scanArgmin_le (fun j => d p.coord (centers.getD j default))
        (centers.length - 1)
      omega
    · intro j hj
      exact scanArgmin_min (fun i => d p.coord (centers.getD i default))
        (centers.length - 1) j (by omega)
    · intro j hj
      exact scanArgmin_first (fun i => d p.coord (centers.getD i default))
        (centers.length - 1) j hj

/-- Witness for C4 on a two-point batch with k = 1 and seed index 0. -/
theorem c4_clustering_matches_spec_witness :
    performClustering taxicab [⟨0, 0, 0⟩, ⟨1, 0, 0⟩] [0] =
      specClustering taxicab [⟨0, 0, 0⟩, ⟨1, 0, 0⟩] [0] ∧
    (∀ c ∈ performClustering taxicab [⟨0, 0, 0⟩, ⟨1, 0, 0⟩] [0],
      c.points ≠ [] ∧ c.center = meanPoint c.points ∧
      c.radius = maxDist taxicab c.center c.points) ∧
    (∀ (centers : List Coord) (p : GeoPoint), centers ≠ [] →
      nearestIdx taxicab centers p < centers.length ∧
      (∀ j < centers.length,
        taxicab p.coord (centers.getD (nearestIdx taxicab centers p) default) ≤
          taxicab p.coord (centers.getD j default)) ∧
      ∀ j < nearestIdx taxicab centers p,
        taxicab p.coord (centers.getD (nearestIdx taxicab centers p) default) <
          taxicab p.coord (centers.getD j default)) :=
  c4_clustering_matches_spec taxicab [⟨0, 0, 0⟩, ⟨1, 0, 0⟩] 1 [0]
    (by decide) (le_refl 1) rfl (by decide)
